import Mathlib

/-!
Verification of the API-gateway middleware stack (FastAPI/Starlette app under
`app/`): the distributed token-bucket rate limiter, the Redis-backed response
cache, the bearer-token authenticator, and the way `app/main.py` composes them.

Modelling conventions
- Python floats (wall-clock times, token counts) are modelled as `ℚ`; the
  claims under study concern exact formulas, not float rounding.
- `int(x)` on a Python float truncates toward zero; this is `pyTrunc`.
- Redis state visible to this gateway is a `Store`: the `rate_limit:{id}`
  hashes and the `cache:{key}` strings, both as association lists.
- Byte strings are `List Nat`; `bytes.decode()` (strict UTF-8) is modelled by
  the executable validator `utf8Valid` (Python's `.decode()` raises exactly on
  invalid UTF-8, and `.encode()` after `.decode()` is the identity on valid
  byte strings, so cached "textual" content is kept as its bytes).
- `hashlib.md5(..).hexdigest()` is modelled as the identity on the hashed
  string: every claim depends only on equality of cache keys, and the digest
  is applied to exactly the joined key string.
-/

/-- Python `int()` applied to a rational (float): truncation toward zero. -/
def pyTrunc (q : ℚ) : ℤ := if 0 ≤ q then ⌊q⌋ else ⌈q⌉

/-- Byte strings (`bytes` in the source), one `Nat` in `[0,255]` per byte. -/
abbrev Bytes := List Nat

/-- UTF-8 encoding of one character (RFC 3629). -/
def utf8EncodeChar (c : Char) : Bytes :=
  let n := c.toNat
  if n < 0x80 then [n]
  else if n < 0x800 then [0xC0 + n / 64, 0x80 + n % 64]
  else if n < 0x10000 then [0xE0 + n / 4096, 0x80 + (n / 64) % 64, 0x80 + n % 64]
  else [0xF0 + n / 262144, 0x80 + (n / 4096) % 64, 0x80 + (n / 64) % 64, 0x80 + n % 64]

/-- UTF-8 encoding of a string (`str.encode()` in the source). -/
def utf8Encode (s : String) : Bytes := s.data.flatMap utf8EncodeChar

/-- Is `b` a UTF-8 continuation byte `0x80..0xBF`? -/
def isCont (b : Nat) : Bool := 0x80 ≤ b && b ≤ 0xBF

/-- Strict UTF-8 validity (RFC 3629: no overlongs, no surrogates, max U+10FFFF).
`bytes.decode()` in the source succeeds exactly on valid input. -/
def utf8Valid : Bytes → Bool
  | [] => true
  | b :: rest =>
    if b ≤ 0x7F then utf8Valid rest
    else if 0xC2 ≤ b && b ≤ 0xDF then
      match rest with
      | b1 :: r => isCont b1 && utf8Valid r
      | _ => false
    else if b = 0xE0 then
      match rest with
      | b1 :: b2 :: r => (0xA0 ≤ b1 && b1 ≤ 0xBF) && isCont b2 && utf8Valid r
      | _ => false
    else if (0xE1 ≤ b && b ≤ 0xEC) || b = 0xEE || b = 0xEF then
      match rest with
      | b1 :: b2 :: r => isCont b1 && isCont b2 && utf8Valid r
      | _ => false
    else if b = 0xED then
      match rest with
      | b1 :: b2 :: r => (0x80 ≤ b1 && b1 ≤ 0x9F) && isCont b2 && utf8Valid r
      | _ => false
    else if b = 0xF0 then
      match rest with
      | b1 :: b2 :: b3 :: r =>
        (0x90 ≤ b1 && b1 ≤ 0xBF) && isCont b2 && isCont b3 && utf8Valid r
      | _ => false
    else if 0xF1 ≤ b && b ≤ 0xF3 then
      match rest with
      | b1 :: b2 :: b3 :: r => isCont b1 && isCont b2 && isCont b3 && utf8Valid r
      | _ => false
    else if b = 0xF4 then
      match rest with
      | b1 :: b2 :: b3 :: r =>
        (0x80 ≤ b1 && b1 ≤ 0x8F) && isCont b2 && isCont b3 && utf8Valid r
      | _ => false
    else false

/-- First element of an association list under key `k` (Redis key lookup /
`dict.get`). -/
def assocLookup {α : Type} : List (String × α) → String → Option α
  | [], _ => none
  | p :: rest, k => if p.1 = k then some p.2 else assocLookup rest k

/-- Overwrite-or-append under key `k` (Redis `SET`/`HSET` on a whole record). -/
def assocSet {α : Type} : List (String × α) → String → α → List (String × α)
  | [], k, v => [(k, v)]
  | p :: rest, k, v =>
    if p.1 = k then (k, v) :: rest else p :: assocSet rest k v

/-- ASCII lowercasing (`str.lower()`; all header names involved are ASCII). -/
def lowerStr (s : String) : String := String.mk (s.data.map Char.toLower)

/-- Case-insensitive header lookup (`request.headers.get`, Starlette headers
are case-insensitive). -/
def headerGet : List (String × String) → String → Option String
  | [], _ => none
  | p :: rest, name =>
    if lowerStr p.1 = lowerStr name then some p.2 else headerGet rest name

/-- Drop every header whose name matches `name` case-insensitively. -/
def removeHeader : List (String × String) → String → List (String × String)
  | [], _ => []
  | p :: rest, name =>
    if lowerStr p.1 = lowerStr name then removeHeader rest name
    else p :: removeHeader rest name

/-- Case-insensitive header assignment (`response.headers[k] = v` on
Starlette's `MutableHeaders`: replaces any existing entry). -/
def setHeader (hs : List (String × String)) (name value : String) :
    List (String × String) :=
  removeHeader hs name ++ [(name, value)]

/-- Python whitespace as stripped by `str.strip()`. -/
def pySpace (c : Char) : Bool :=
  c = ' ' ∨ c = '\t' ∨ c = '\n' ∨ c = '\r' ∨ c = '\x0b' ∨ c = '\x0c'

/-- `str.strip()` on a character list: drop whitespace at both ends. -/
def pyStrip (l : List Char) : List Char :=
  ((l.dropWhile pySpace).reverse.dropWhile pySpace).reverse

/-- Does list `l` start with `pat`? -/
def listStartsWith : List Char → List Char → Bool
  | [], _ => true
  | _ :: _, [] => false
  | a :: as, b :: bs => a == b && listStartsWith as bs

/-- `s.startswith(pre)`. -/
def strStartsWith (s pre : String) : Bool := listStartsWith pre.data s.data

/-- `auth.removeprefix("Bearer ").strip()` — under the guard that `auth`
starts with `Bearer ` (7 characters), `removeprefix` drops exactly 7. -/
def authToken (auth : String) : String :=
  String.mk (pyStrip (auth.data.drop 7))

/-- Does `pat` occur as a contiguous sublist of `l`? -/
def listContainsSub (pat : List Char) : List Char → Bool
  | [] => pat.isEmpty
  | c :: rest => listStartsWith pat (c :: rest) || listContainsSub pat rest

/-- Python substring test (`pat in s`). -/
def strContains (s pat : String) : Bool := listContainsSub pat.data s.data

/-- Body bytes of `JSONResponse({"detail": s})`: Starlette renders compact
JSON (`separators=(",", ":")`). The detail strings in this development need
no JSON escaping. -/
def jsonDetail (s : String) : Bytes :=
  utf8Encode ("\x7b\"detail\":\"" ++ s ++ "\"\x7d")

/-- Body bytes of the `/health` handler's `{"status":"healthy"}` response. -/
def healthBody : Bytes := utf8Encode "\x7b\"status\":\"healthy\"\x7d"

/-- One `rate_limit:{client_id}` hash: fields `tokens` and `last_refill`. -/
structure Bucket where
  tokens : ℚ
  lastRefill : ℚ
deriving DecidableEq, Repr

/-- One `cache:{hash}` record: the JSON-serialised
`{content, status_code, headers, cached_at}`. -/
structure CacheEntry where
  content : Bytes
  statusCode : Nat
  headers : List (String × String)
  cachedAt : ℚ
deriving DecidableEq, Repr

/-- The Redis state this gateway reads and writes. -/
structure Store where
  buckets : List (String × Bucket)
  cache : List (String × CacheEntry)
deriving DecidableEq, Repr

/-- A request at the point it enters the middleware stack. `user` is
`request.state.user`: `none` while the attribute is unset, `some claims`
(the decoded JWT payload as a string-keyed dict) once auth attached it. -/
structure Request where
  method : String
  path : String
  query : String
  headers : List (String × String)
  clientHost : String
  user : Option (List (String × String))
deriving DecidableEq, Repr

/-- A buffered HTTP response (status, headers, body bytes). Implicit
transport headers (content-length, content-type) are not modelled; no claim
mentions them. -/
structure Response where
  body : Bytes
  statusCode : Nat
  headers : List (String × String)
deriving DecidableEq, Repr

/-- Uncaught Python runtime errors that can escape a middleware. -/
inductive PyError
  | zeroDivision
deriving DecidableEq, Repr

/-- A handler either produced a response or let a Python exception escape. -/
inductive HandlerResult
  | ok (resp : Response)
  | error (e : PyError)
deriving DecidableEq, Repr

/-- Result of running a handler: the response (or an escaped exception), the
Redis state afterwards (external writes persist even when an exception is
raised later in the same dispatch), and how many origin calls were made. -/
structure Outcome where
  result : HandlerResult
  store : Store
  originCalls : Nat
deriving DecidableEq, Repr

/-- A Starlette handler; middlewares are `Handler → Handler`. Wall-clock time
is threaded in by each middleware's constructor parameters. -/
abbrev Handler := Request → Store → Outcome

/-!
### Rate limiter (`app/middleware/rate_limit.py`)
-/

/-- The body of one successful WATCH/MULTI/EXEC round of
`RedisRateLimiter.is_rate_limited` (lines 55-87): read the bucket (absent
fields default to `max_tokens` and `now`), refill, decide, consume, and the
`(tokens, last_refill)` hash that `pipe.hset` writes back. Returns
`((is_limited, int(tokens)), written bucket)`. The two `time.time()` calls
of the middleware and the limiter are modelled as one `now`. -/
def rateLimiterStep (maxTokens : ℕ) (refillRate : ℚ) (now : ℚ)
    (b : Option Bucket) : (Bool × ℤ) × Bucket :=
  let tokens : ℚ := match b with | some bk => bk.tokens | none => (maxTokens : ℚ)
  let lastRefill : ℚ := match b with | some bk => bk.lastRefill | none => now
  let timeElapsed := now - lastRefill
  let tokensToAdd := timeElapsed * refillRate
  let tokens := min (maxTokens : ℚ) (tokens + tokensToAdd)
  if tokens < 1 then
    ((true, pyTrunc tokens), ⟨tokens, now⟩)
  else
    ((false, pyTrunc (tokens - 1)), ⟨tokens - 1, now⟩)

/-- Outcome of one optimistic-transaction attempt: commit, or a
`redis.WatchError` because another client touched the key. -/
inductive TxnAttempt
  | ok
  | watchError
deriving DecidableEq, Repr

/-- The `for attempt in range(max_retries)` loop of `is_rate_limited`
(lines 49-98), driven by an oracle listing each attempt's fate. Fuel starts
at `max_retries = 3`; a `WatchError` on the last attempt returns
`(False, max_tokens)` without writing (lines 89-95). Attempts beyond the
oracle's list commit. -/
def isRateLimitedGo (maxTokens : ℕ) (refillRate : ℚ) (now : ℚ) :
    ℕ → List TxnAttempt → Option Bucket → (Bool × ℤ) × Option Bucket
  | 0, _, b => ((false, (maxTokens : ℤ)), b)
  | n + 1, .watchError :: evs, b =>
    if n = 0 then ((false, (maxTokens : ℤ)), b)
    else isRateLimitedGo maxTokens refillRate now n evs b
  | _ + 1, .ok :: _, b =>
    let r := rateLimiterStep maxTokens refillRate now b
    (r.1, some r.2)
  | _ + 1, [], b =>
    let r := rateLimiterStep maxTokens refillRate now b
    (r.1, some r.2)

/-- `RedisRateLimiter.is_rate_limited` (lines 30-103): `storeError` models the
outer `except Exception` (Redis unreachable, etc.), which fails open with
`(False, max_tokens)` (lines 100-103); otherwise the retry loop runs with
`max_retries = 3`. -/
def is_rate_limited (maxTokens : ℕ) (refillRate : ℚ) (now : ℚ)
    (storeError : Bool) (events : List TxnAttempt) (b : Option Bucket) :
    (Bool × ℤ) × Option Bucket :=
  if storeError then ((false, (maxTokens : ℤ)), b)
  else isRateLimitedGo maxTokens refillRate now 3 events b

/-- The buckets written by a sequence of (conflict-free) limiter calls at the
given wall-clock times, starting from bucket state `b`. -/
def runLimiterTrace (maxTokens : ℕ) (refillRate : ℚ) :
    List ℚ → Option Bucket → List Bucket
  | [], _ => []
  | now :: rest, b =>
    let bk := (rateLimiterStep maxTokens refillRate now b).2
    bk :: runLimiterTrace maxTokens refillRate rest (some bk)

/-- `RateLimitMiddleware._get_client_id` (lines 155-166): `user:{sub}` from a
truthy `request.state.user.get("sub")`, else the first `X-Forwarded-For` hop
(if the header is truthy), else `request.client.host`. -/
def get_client_id (r : Request) : String :=
  let ipFallback : String :=
    match headerGet r.headers "X-Forwarded-For" with
    | some fwd =>
      if fwd = "" then "ip:" ++ r.clientHost
      else
        "ip:" ++
          String.mk (pyStrip (fwd.data.takeWhile (fun c => ¬ c = ',')))
    | none => "ip:" ++ r.clientHost
  match r.user with
  | some u =>
    match assocLookup u "sub" with
    | some sub => if sub = "" then ipFallback else "user:" ++ sub
    | none => ipFallback
  | none => ipFallback

/-- `RateLimitMiddleware.dispatch` (lines 114-152), happy store path (no
watch conflicts, store reachable). `refill_rate = max_tokens / window_size`
as set in `__init__`; `1.0 / refill_rate` raises `ZeroDivisionError` when
the rate is zero — the limiter call and its Redis write happen first, so the
written bucket persists. `reset_time = int(now + 1/refill_rate) + 1`. -/
def rateLimitDispatch (maxTokens windowSize : ℕ) (now : ℚ)
    (inner : Handler) : Handler := fun req s =>
  if req.path = "/health" then inner req s
  else
    let clientId := get_client_id req
    let refillRate : ℚ := (maxTokens : ℚ) / (windowSize : ℚ)
    let key := "rate_limit:" ++ clientId
    let r := rateLimiterStep maxTokens refillRate now (assocLookup s.buckets key)
    let limited := r.1.1
    let remaining := r.1.2
    let s1 : Store := { s with buckets := assocSet s.buckets key r.2 }
    if refillRate = 0 then ⟨.error .zeroDivision, s1, 0⟩
    else
      let resetTime : ℤ := pyTrunc (now + 1 / refillRate) + 1
      let hdrs : List (String × String) :=
        [("X-RateLimit-Limit", toString maxTokens),
         ("X-RateLimit-Remaining", toString remaining),
         ("X-RateLimit-Reset", toString resetTime)]
      if limited then
        ⟨.ok ⟨jsonDetail "Too many requests", 429, hdrs⟩, s1, 0⟩
      else
        let o := inner req s1
        match o.result with
        | .error e => ⟨.error e, o.store, o.originCalls⟩
        | .ok resp =>
          let respHeaders :=
            hdrs.foldl (fun acc p => setHeader acc p.1 p.2) resp.headers
          ⟨.ok { resp with headers := respHeaders }, o.store, o.originCalls⟩

/-!
### Authenticator (`app/middleware/auth.py`)
-/

/-- The fate of `jwt.decode` on a given token string: a decoded payload, the
two caught `PyJWT` failures, or an unexpected internal error with message. -/
inductive JwtOutcome
  | ok (payload : List (String × String))
  | expired
  | invalid
  | error (msg : String)
deriving DecidableEq, Repr

/-- `auth_middleware` (lines 6-38): `/health` bypass; missing or
non-`Bearer ` header → 401; then `jwt.decode` on
`auth.removeprefix("Bearer ").strip()` mapped exactly as the
`except` clauses do; on success the payload is attached as
`request.state.user` and the inner handler runs. -/
def auth_middleware (jwtDecode : String → JwtOutcome) (inner : Handler) :
    Handler := fun req s =>
  if req.path = "/health" then inner req s
  else
    let missing : Outcome :=
      ⟨.ok ⟨jsonDetail "Missing or invalid Authorization header", 401, []⟩, s, 0⟩
    match headerGet req.headers "Authorization" with
    | none => missing
    | some auth =>
      if ¬ strStartsWith auth "Bearer " then missing
      else
        let token := authToken auth
        match jwtDecode token with
        | .ok payload => inner { req with user := some payload } s
        | .expired => ⟨.ok ⟨jsonDetail "Token expired", 401, []⟩, s, 0⟩
        | .invalid => ⟨.ok ⟨jsonDetail "Token invalid", 401, []⟩, s, 0⟩
        | .error m =>
          ⟨.ok ⟨jsonDetail ("Auth error: " ++ m), 500, []⟩, s, 0⟩

/-!
### Response cache (`app/middleware/cache.py`)
-/

/-- The case-insensitive strip of gateway-injected headers applied both when
reading a cached entry (lines 69-73) and before storing one (lines 104-108). -/
def stripGatewayHeaders : List (String × String) → List (String × String)
  | [] => []
  | p :: rest =>
    if lowerStr p.1 = "x-cache" ∨ lowerStr p.1 = "x-process-time" ∨
        lowerStr p.1 = "x-cache-ttl" then
      stripGatewayHeaders rest
    else p :: stripGatewayHeaders rest

/-- `ResponseCache._should_cache_request` (lines 129-143): GET only, not
`/health`, and the request `Cache-Control` header is not exactly
`no-cache`. -/
def should_cache_request (r : Request) : Bool :=
  if r.method ≠ "GET" then false
  else if r.path = "/health" then false
  else if headerGet r.headers "Cache-Control" = some "no-cache" then false
  else true

/-- `ResponseCache._should_cache_response` (lines 145-156). The `request`
argument is accepted but never consulted in the source, exactly as here:
only the response status and its `Cache-Control` substrings decide. -/
def should_cache_response (_r : Request) (resp : Response) : Bool :=
  if resp.statusCode < 200 ∨ 300 ≤ resp.statusCode then false
  else
    let cacheControl := (headerGet resp.headers "Cache-Control").getD ""
    if strContains cacheControl "no-cache" ∨ strContains cacheControl "no-store"
    then false
    else true

/-- The caller-identity part appended to the cache key by
`ResponseCache._generate_cache_key` (lines 38-42): `user:{sub}` (with
`'anonymous'` as `dict.get` default) when `request.state.user` is a truthy
(non-empty) dict, else the literal `anonymous`. -/
def cacheIdentityComponent (r : Request) : String :=
  match r.user with
  | some u =>
    if u ≠ [] then "user:" ++ ((assocLookup u "sub").getD "anonymous")
    else "anonymous"
  | none => "anonymous"

/-- `hashlib.md5(key_string.encode()).hexdigest()` modelled as the identity:
the claims depend only on equality of cache keys and the digest is applied to
exactly this string. -/
def md5Hex (s : String) : String := s

/-- `ResponseCache._generate_cache_key` (lines 29-48):
`cache:` + md5 of `method|path|query|identity`. -/
def generate_cache_key (r : Request) : String :=
  let keyString :=
    String.intercalate "|" [r.method, r.path, r.query, cacheIdentityComponent r]
  "cache:" ++ md5Hex keyString

/-- `ResponseCache.get_cached_response` (lines 50-84): `None` when the
request is not cache-eligible or the key is absent; otherwise the stored
content bytes, status, and headers with gateway-injected names stripped.
(Stored content is the decoded text; `.encode()` on read restores exactly the
bytes that were stored, so the model keeps the bytes. A Redis read failure is
logged and treated as a miss; no claim exercises it.) -/
def get_cached_response (r : Request) (s : Store) :
    Option (Bytes × Nat × List (String × String)) :=
  if ¬ should_cache_request r then none
  else
    match assocLookup s.cache (generate_cache_key r) with
    | some e => some (e.content, e.statusCode, stripGatewayHeaders e.headers)
    | none => none

/-- `ResponseCache.cache_response` (lines 86-127): skip if the response is
ineligible; `content.decode()` raises `UnicodeDecodeError` on invalid UTF-8
(empty content short-circuits to `""` and cannot raise), the `except` clause
swallows it and nothing is written; otherwise `setex` the cleaned record.
The TTL only sets Redis expiry, which is not part of the store model. -/
def cache_response (r : Request) (resp : Response) (content : Bytes)
    (now : ℚ) (s : Store) : Store :=
  if ¬ should_cache_response r resp then s
  else if content ≠ [] ∧ utf8Valid content = false then s
  else
    let entry : CacheEntry :=
      { content := content
        statusCode := resp.statusCode
        headers := stripGatewayHeaders resp.headers
        cachedAt := now }
    { s with cache := assocSet s.cache (generate_cache_key r) entry }

/-- `CacheMiddleware.dispatch` (lines 177-235). `procTime` stands for the
rendered `f"{process_time:.4f}"` string (timing is nondeterministic and no
claim inspects it). All handlers in this development return buffered
responses, so the streaming branch (lines 210-230), which drains the body and
rebuilds the same response, is not taken. -/
def cacheDispatch (cacheEnabled : Bool) (defaultTtl : ℕ) (now : ℚ)
    (procTime : String) (inner : Handler) : Handler := fun req s =>
  if ¬ cacheEnabled then
    let o := inner req s
    match o.result with
    | .error e => ⟨.error e, o.store, o.originCalls⟩
    | .ok resp =>
      ⟨.ok { resp with headers := setHeader resp.headers "X-Cache" "DISABLED" },
       o.store, o.originCalls⟩
  else
    match get_cached_response req s with
    | some (content, status, hdrs) =>
      let hdrs := setHeader hdrs "X-Cache" "HIT"
      let hdrs := setHeader hdrs "X-Cache-TTL" (toString defaultTtl)
      ⟨.ok ⟨content, status, hdrs⟩, s, 0⟩
    | none =>
      let o := inner req s
      match o.result with
      | .error e => ⟨.error e, o.store, o.originCalls⟩
      | .ok resp =>
        let resp :=
          { resp with
            headers := setHeader (setHeader resp.headers "X-Cache" "MISS")
              "X-Process-Time" procTime }
        let s1 := cache_response req resp resp.body now o.store
        ⟨.ok resp, s1, o.originCalls⟩

/-!
### Logging middleware, router, and the `app/main.py` composition
-/

/-- `LoggingMiddleware.dispatch` (`app/middleware/logging.py`): records log
lines only; the response passes through unchanged and exceptions are
re-raised. -/
def loggingDispatch (inner : Handler) : Handler := fun req s => inner req s

/-- The router of `app/routers/proxy.py` restricted to the routes the claims
exercise: `GET /health` answers `{"status":"healthy"}` locally; every other
request goes through `proxy_request`, one upstream call returning the
origin's response unchanged. (The admin/test endpoints and the 502 transport
branch are not involved in any claim.) -/
def routerHandler (origin : Request → Response) : Handler := fun req s =>
  if req.method = "GET" ∧ req.path = "/health" then
    ⟨.ok ⟨healthBody, 200, []⟩, s, 0⟩
  else
    ⟨.ok (origin req), s, 1⟩

/-- Starlette `app.add_middleware`: `user_middleware.insert(0, m)` — the
middleware registered LAST ends up first in the list, i.e. outermost. -/
def addMiddleware (m : Handler → Handler) (l : List (Handler → Handler)) :
    List (Handler → Handler) := m :: l

/-- The configuration fields of `app/config.py` that `main.py` consults. -/
structure Config where
  cacheEnabled : Bool
  cacheTtl : ℕ
  rateLimitEnabled : Bool
  rateLimitPerMinute : ℕ
  windowSizeSeconds : ℕ
deriving DecidableEq, Repr

/-- The `user_middleware` list built by `app/main.py` lines 13-32, in the
source's registration order: `LoggingMiddleware`, then `CacheMiddleware` (if
`CACHE_ENABLED`), then `RateLimitMiddleware` (if `RATE_LIMIT_ENABLED`), then
`app.middleware("http")(auth_middleware)` — each call prepending. -/
def userMiddleware (cfg : Config) (now : ℚ) (procTime : String)
    (jwtDecode : String → JwtOutcome) : List (Handler → Handler) :=
  let l := addMiddleware loggingDispatch []
  let l :=
    if cfg.cacheEnabled then
      addMiddleware (cacheDispatch cfg.cacheEnabled cfg.cacheTtl now procTime) l
    else l
  let l :=
    if cfg.rateLimitEnabled then
      addMiddleware
        (rateLimitDispatch cfg.rateLimitPerMinute cfg.windowSizeSeconds now) l
    else l
  addMiddleware (auth_middleware jwtDecode) l

/-- The full application: Starlette wraps the router with `user_middleware`
in list order, first element outermost. -/
def gatewayApp (cfg : Config) (now : ℚ) (procTime : String)
    (jwtDecode : String → JwtOutcome) (origin : Request → Response) :
    Handler :=
  (userMiddleware cfg now procTime jwtDecode).foldr
    (fun m h => m h) (routerHandler origin)

/-!
### Concrete scenario data used by the theorems below
-/

/-- The header value of `name` in an outcome's response, `none` when the
outcome is an escaped exception. -/
def responseHeader (o : Outcome) (name : String) : Option String :=
  match o.result with
  | .ok resp => headerGet resp.headers name
  | .error _ => none

/-- A `jwt.decode` fate map: one known-good token with subject `alice`,
everything else fails validation. -/
def jwtStub : String → JwtOutcome := fun t =>
  if t = "goodtoken" then .ok [("sub", "alice")] else .invalid

/-- A fixed downstream origin. -/
def originStub : Request → Response := fun _ =>
  ⟨utf8Encode "\x7b\"data\":\"test\"\x7d", 200,
   [("Content-Type", "application/json")]⟩

/-- The defaults of `app/config.py`, with `RATE_LIMIT_PER_MINUTE = 3`. -/
def cfg0 : Config := ⟨true, 300, true, 3, 60⟩

/-- The same configuration with `RATE_LIMIT_PER_MINUTE = 0`. -/
def cfgZero : Config := ⟨true, 300, true, 0, 60⟩

/-- An authenticated cache-eligible request: `GET /api/data` with the good
bearer token. -/
def reqHit : Request :=
  ⟨"GET", "/api/data", "", [("Authorization", "Bearer goodtoken")],
   "1.2.3.4", none⟩

/-- A live cached response for `GET /api/data` by `user:alice`. -/
def hitEntry : CacheEntry :=
  ⟨utf8Encode "cached-body", 200, [("Content-Type", "application/json")], 50⟩

/-- Store holding only the live cache entry matching `reqHit` (no bucket). -/
def storeHit : Store := ⟨[], [("cache:GET|/api/data||user:alice", hitEntry)]⟩

/-- Store in which `user:alice`'s bucket is exhausted at time 100. -/
def storeExhausted : Store := ⟨[("rate_limit:user:alice", ⟨0, 100⟩)], []⟩

/-- A request with no `Authorization` header. -/
def reqNoAuth : Request := ⟨"GET", "/foo", "", [], "1.2.3.4", none⟩

/-- A plain `GET /health` request. -/
def reqHealth : Request := ⟨"GET", "/health", "", [], "9.9.9.9", none⟩

/-- An unauthenticated request carrying an `X-Forwarded-For` header. -/
def reqFwd : Request :=
  ⟨"GET", "/a", "", [("X-Forwarded-For", "1.2.3.4, 5.6.7.8")], "7.7.7.7", none⟩

/-- A request whose `request.state.user` was set to a claim set with
subject `alice`. -/
def reqAuthed : Request :=
  ⟨"GET", "/a", "", [], "7.7.7.7", some [("sub", "alice")]⟩

/-- An unauthenticated request for a generic path (seen at the rate-limit
middleware directly). -/
def reqData : Request := ⟨"GET", "/api/data", "", [], "9.9.9.9", none⟩

/-- An inner handler that answers 200 with an empty body. -/
def innerTrivial : Handler := fun _ s => ⟨.ok ⟨[], 200, []⟩, s, 0⟩

/-- An inner handler answering 200 with the single byte `0xFF`, which is not
valid UTF-8. -/
def innerBad : Handler := fun _ s => ⟨.ok ⟨[255], 200, []⟩, s, 0⟩

/-!
### Evaluation facts

Small computations (pure string and byte work, no rational arithmetic) proved
by kernel evaluation and fed to `simp`/`norm_num` in the larger proofs.
-/

lemma lower_xcache : lowerStr "X-Cache" = "x-cache" := by decide

lemma lower_xcachettl : lowerStr "X-Cache-TTL" = "x-cache-ttl" := by decide

lemma lower_xproc : lowerStr "X-Process-Time" = "x-process-time" := by decide

lemma lower_auth : lowerStr "Authorization" = "authorization" := by decide

lemma lower_fwd : lowerStr "X-Forwarded-For" = "x-forwarded-for" := by decide

lemma lower_cc : lowerStr "Cache-Control" = "cache-control" := by decide

lemma lower_ct : lowerStr "Content-Type" = "content-type" := by decide

lemma lower_rll : lowerStr "X-RateLimit-Limit" = "x-ratelimit-limit" := by
  decide

lemma lower_rlr :
    lowerStr "X-RateLimit-Remaining" = "x-ratelimit-remaining" := by decide

lemma lower_rls : lowerStr "X-RateLimit-Reset" = "x-ratelimit-reset" := by
  decide

lemma bearer_good : strStartsWith "Bearer goodtoken" "Bearer " = true := by
  decide

lemma token_good : authToken "Bearer goodtoken" = "goodtoken" := by decide

lemma clientid_alice :
    get_client_id ⟨"GET", "/api/data", "",
      [("Authorization", "Bearer goodtoken")], "1.2.3.4",
      some [("sub", "alice")]⟩ = "user:alice" := by decide

lemma clientid_ip :
    get_client_id ⟨"GET", "/api/data", "", [], "9.9.9.9", none⟩ =
      "ip:9.9.9.9" := by decide

lemma rlkey_alice :
    "rate_limit:" ++ "user:alice" = "rate_limit:user:alice" := by decide

lemma rlkey_ip : "rate_limit:" ++ "ip:9.9.9.9" = "rate_limit:ip:9.9.9.9" := by
  decide

lemma cachekey_alice :
    generate_cache_key ⟨"GET", "/api/data", "",
      [("Authorization", "Bearer goodtoken")], "1.2.3.4",
      some [("sub", "alice")]⟩ = "cache:GET|/api/data||user:alice" := by decide

/-!
### Claims
-/

/-- Claim C1 (code bug). The claim says a request answered from the cache
consumes no rate-limit token because the pipeline order is logging, cache,
rate limiter, authenticator, proxy. Starlette's `add_middleware` prepends,
so `app/main.py`'s registration order actually produces the reverse pipeline
auth → rate limiter → cache → logging, contradicting `main.py`'s own comment
that logging "should be first to capture all requests". Evaluating the
composed app on an authenticated `GET /api/data` whose fingerprint has a
live cache entry and whose caller has no bucket yet: the response is indeed
the cached one (`X-Cache: HIT`, zero origin calls), but a fresh bucket is
written with `max_tokens - 1 = 2` tokens — the hit consumed a token. -/
theorem c1_cache_hit_consumes_token :
    gatewayApp cfg0 100 "0.0000" jwtStub originStub reqHit storeHit =
      ⟨.ok ⟨utf8Encode "cached-body", 200,
          [("Content-Type", "application/json"), ("X-Cache", "HIT"),
           ("X-Cache-TTL", "300"), ("X-RateLimit-Limit", "3"),
           ("X-RateLimit-Remaining", "2"), ("X-RateLimit-Reset", "121")]⟩,
       ⟨[("rate_limit:user:alice", ⟨2, 100⟩)],
        [("cache:GET|/api/data||user:alice", hitEntry)]⟩, 0⟩ ∧
    assocLookup storeHit.buckets "rate_limit:user:alice" = none := by
  norm_num +decide [gatewayApp, userMiddleware, addMiddleware, cfg0,
    auth_middleware, loggingDispatch, rateLimitDispatch, cacheDispatch,
    routerHandler, reqHit, jwtStub, headerGet, strStartsWith, listStartsWith,
    get_cached_response, should_cache_request, assocLookup, assocSet,
    rateLimiterStep, pyTrunc, stripGatewayHeaders, setHeader, removeHeader,
    hitEntry, storeHit, originStub, lower_xcache, lower_xcachettl, lower_xproc,
    lower_auth, lower_fwd, lower_cc, lower_ct, lower_rll, lower_rlr, lower_rls,
    bearer_good, token_good, clientid_alice, rlkey_alice, cachekey_alice]

/-- Claim C2 (code bug). The claim says every response carries an `X-Cache`
header, including 401 and 429 short-circuits. Because the actual pipeline is
auth → rate limiter → cache (see C1), a 401 from the authenticator and a 429
from the limiter never traverse the cache middleware: both responses carry
no `X-Cache` header at all. (When `CACHE_ENABLED` is false, `main.py` does
not install `CacheMiddleware` at all, so no response would carry
`X-Cache: DISABLED` either.) -/
theorem c2_short_circuits_lack_x_cache :
    responseHeader
        (gatewayApp cfg0 100 "0.0000" jwtStub originStub reqNoAuth ⟨[], []⟩)
        "X-Cache" = none ∧
    (gatewayApp cfg0 100 "0.0000" jwtStub originStub reqNoAuth ⟨[], []⟩).result =
      .ok ⟨jsonDetail "Missing or invalid Authorization header", 401, []⟩ ∧
    responseHeader
        (gatewayApp cfg0 100 "0.0000" jwtStub originStub reqHit storeExhausted)
        "X-Cache" = none ∧
    (gatewayApp cfg0 100 "0.0000" jwtStub originStub reqHit storeExhausted).result =
      .ok ⟨jsonDetail "Too many requests", 429,
        [("X-RateLimit-Limit", "3"), ("X-RateLimit-Remaining", "0"),
         ("X-RateLimit-Reset", "121")]⟩ := by
  norm_num +decide [gatewayApp, userMiddleware, addMiddleware, cfg0,
    auth_middleware, loggingDispatch, rateLimitDispatch, cacheDispatch,
    routerHandler, reqHit, reqNoAuth, jwtStub, headerGet, strStartsWith,
    listStartsWith, get_cached_response, should_cache_request, assocLookup,
    assocSet, rateLimiterStep, pyTrunc, stripGatewayHeaders, setHeader,
    removeHeader, storeExhausted, originStub, responseHeader, lower_xcache,
    lower_xcachettl, lower_xproc, lower_auth, lower_fwd, lower_cc, lower_ct,
    lower_rll, lower_rlr, lower_rls, bearer_good, token_good, clientid_alice,
    rlkey_alice, cachekey_alice]

/-- Claim C4 (code bug). With `max_tokens = 0` the limiter itself is total
and returns `(limited = true, remaining = 0)` exactly as claimed, but
`RateLimitMiddleware.dispatch` then evaluates
`seconds_per_token = 1.0 / refill_rate` with
`refill_rate = 0 / 60 = 0`, raising `ZeroDivisionError` on every non-bypass
request — the client gets a 500, never the claimed 429. -/
theorem c4_zero_max_tokens_division_error :
    rateLimiterStep 0 ((0 : ℚ) / (60 : ℚ)) 100 none = ((true, 0), ⟨0, 100⟩) ∧
    (gatewayApp cfgZero 100 "0.0000" jwtStub originStub reqHit ⟨[], []⟩).result =
      .error .zeroDivision := by
  norm_num +decide [gatewayApp, userMiddleware, addMiddleware, cfgZero,
    auth_middleware, loggingDispatch, rateLimitDispatch, cacheDispatch,
    routerHandler, reqHit, jwtStub, headerGet, strStartsWith, listStartsWith,
    get_cached_response, should_cache_request, assocLookup, assocSet,
    rateLimiterStep, pyTrunc, stripGatewayHeaders, setHeader, removeHeader,
    originStub, lower_xcache, lower_xcachettl, lower_xproc, lower_auth,
    lower_fwd, lower_cc, lower_ct, lower_rll, lower_rlr, lower_rls,
    bearer_good, token_good, clientid_alice, rlkey_alice, cachekey_alice]

/-- Claim C3, counterexample. The limiter's `_get_client_id` and the
identity component of the cache key are not computed identically: on an
unauthenticated request carrying `X-Forwarded-For`, the limiter derives
`ip:1.2.3.4` while the cache appends the literal `anonymous` (the cache
never falls back to any IP). -/
theorem c3_counterexample :
    get_client_id reqFwd = "ip:1.2.3.4" ∧
    cacheIdentityComponent reqFwd = "anonymous" ∧
    get_client_id reqFwd ≠ cacheIdentityComponent reqFwd := by
  decide

/-- Claim C5, counterexample. `GET /health` against an empty store: the
pipeline answers 200 healthy, but because
`ResponseCache._should_cache_response` never consults the request path, the
response IS written to the cache store under the `/health` fingerprint. -/
theorem c5_counterexample :
    assocLookup
      (gatewayApp cfg0 100 "0.0000" jwtStub originStub reqHealth
        ⟨[], []⟩).store.cache
      "cache:GET|/health||anonymous" = some ⟨healthBody, 200, [], 100⟩ := by
  decide

/-- Claim C6, counterexample. With arbitrary (non-monotone) wall-clock
values the written token count can leave `[0, max_tokens]`: starting from no
bucket with `max_tokens = 3`, `refill_rate = 3`, three calls at time 10
drain the bucket to 0, and a fourth call at time 0 (clock stepped back)
writes `tokens = -30`. -/
theorem c6_counterexample :
    runLimiterTrace 3 3 [10, 10, 10, 0] none =
      [⟨2, 10⟩, ⟨1, 10⟩, ⟨0, 10⟩, ⟨-30, 0⟩] ∧
    ¬ (∀ bk ∈ runLimiterTrace 3 3 [10, 10, 10, 0] none,
        0 ≤ bk.tokens ∧ bk.tokens ≤ 3) := by
  norm_num [runLimiterTrace, rateLimiterStep, pyTrunc]

/-- One limiter round keeps the written bucket inside `[0, max_tokens]` and
stamps `last_refill = now`, provided the stored bucket was in range and its
`last_refill` is not in the future. -/
lemma rateLimiterStep_inv (maxTokens : ℕ) (refillRate now : ℚ)
    (b : Option Bucket) (hr : 0 ≤ refillRate)
    (hb : ∀ bk, b = some bk →
      0 ≤ bk.tokens ∧ bk.tokens ≤ maxTokens ∧ bk.lastRefill ≤ now) :
    (0 ≤ (rateLimiterStep maxTokens refillRate now b).2.tokens ∧
     (rateLimiterStep maxTokens refillRate now b).2.tokens ≤ maxTokens) ∧
    (rateLimiterStep maxTokens refillRate now b).2.lastRefill = now := by
  rcases b with _ | bk
  · simp only [rateLimiterStep]
    split_ifs with h <;> dsimp only
    · simp only [sub_self, zero_mul, add_zero, min_self]
      exact ⟨⟨Nat.cast_nonneg _, le_refl _⟩, trivial⟩
    · simp only [sub_self, zero_mul, add_zero, min_self] at h ⊢
      push_neg at h
      refine ⟨⟨by linarith, by linarith⟩, trivial⟩
  · obtain ⟨h0, h1, h2⟩ := hb bk rfl
    have hadd : 0 ≤ (now - bk.lastRefill) * refillRate :=
      mul_nonneg (by linarith) hr
    simp only [rateLimiterStep]
    split_ifs with h <;> dsimp only
    · refine ⟨⟨?_, ?_⟩, rfl⟩
      · exact le_min (Nat.cast_nonneg _) (by linarith)
      · exact min_le_left _ _
    · push_neg at h
      have hub := min_le_left ((maxTokens : ℚ))
        (bk.tokens + (now - bk.lastRefill) * refillRate)
      refine ⟨⟨by linarith, by linarith⟩, rfl⟩

/-- Every bucket written along a run of limiter calls stays in range, as
long as each call's clock reading is not earlier than the previous one. -/
lemma runLimiterTrace_inv (maxTokens : ℕ) (refillRate : ℚ)
    (hr : 0 ≤ refillRate) :
    ∀ (nows : List ℚ), nows.Chain' (· ≤ ·) → ∀ (b : Option Bucket),
      (∀ bk, b = some bk → 0 ≤ bk.tokens ∧ bk.tokens ≤ maxTokens ∧
        ∀ n, nows.head? = some n → bk.lastRefill ≤ n) →
      ∀ bk ∈ runLimiterTrace maxTokens refillRate nows b,
        0 ≤ bk.tokens ∧ bk.tokens ≤ maxTokens := by
  intro nows
  induction nows with
  | nil => intro _ b _ bk hbk; simp [runLimiterTrace] at hbk
  | cons now rest ih =>
    intro hch b hb bk hbk
    rw [List.chain'_cons'] at hch
    obtain ⟨hhead, hch2⟩ := hch
    have hstep := rateLimiterStep_inv maxTokens refillRate now b hr
      (fun bk0 h => by
        obtain ⟨g1, g2, g3⟩ := hb bk0 h
        exact ⟨g1, g2, g3 now rfl⟩)
    simp only [runLimiterTrace, List.mem_cons] at hbk
    rcases hbk with rfl | hbk
    · exact hstep.1
    · refine ih hch2 (some _) ?_ bk hbk
      intro bk1 h
      injection h with h
      subst h
      refine ⟨hstep.1.1, hstep.1.2, ?_⟩
      intro n hn
      rw [hstep.2]
      exact hhead n hn

/-- Claim C6, amended: with a non-decreasing clock (`now` never earlier than
the stored `last_refill`, as in the claim's sequence when wall-clock values
are monotone) every `tokens` value written to `rate_limit:{client_id}` lies
in `[0, max_tokens]`; the counterexample above shows the amendment is needed
when the clock steps backwards. -/
theorem c6_amended (maxTokens : ℕ) (refillRate : ℚ) (hr : 0 ≤ refillRate)
    (nows : List ℚ) (hmono : nows.Chain' (· ≤ ·)) :
    ∀ bk ∈ runLimiterTrace maxTokens refillRate nows none,
      0 ≤ bk.tokens ∧ bk.tokens ≤ maxTokens :=
  runLimiterTrace_inv maxTokens refillRate hr nows hmono none
    (fun _ h => nomatch h)

/-- Witness for C6 amended: the single write of a fresh client at time 0
with `max_tokens = 3`, `window = 60` stays in `[0, 3]`. -/
theorem c6_amended_witness :
    0 ≤ (rateLimiterStep 3 ((3 : ℚ) / 60) 0 none).2.tokens ∧
    (rateLimiterStep 3 ((3 : ℚ) / 60) 0 none).2.tokens ≤ 3 := by
  have h := c6_amended 3 ((3 : ℚ) / 60) (by norm_num) [0] (by simp)
    ((rateLimiterStep 3 ((3 : ℚ) / 60) 0 none).2) (by simp [runLimiterTrace])
  exact_mod_cast h

/-- Claim C3, amended: the limiter's identity and the cache-key identity
component agree — both `user:{sub}` — exactly when a non-empty verified
claim set with a non-empty `sub` is attached; on requests without a claim
set the cache appends the literal `anonymous` (never an `ip:` identity),
while the limiter falls back to `X-Forwarded-For` or the peer address. -/
theorem c3_amended :
    (∀ (r : Request) (u : List (String × String)) (sub : String),
       r.user = some u → u ≠ [] → assocLookup u "sub" = some sub → sub ≠ "" →
       get_client_id r = "user:" ++ sub ∧
       cacheIdentityComponent r = "user:" ++ sub) ∧
    (∀ r : Request, r.user = none → cacheIdentityComponent r = "anonymous") := by
  constructor
  · intro r u sub hu hne hsub hs
    constructor
    · simp [get_client_id, hu, hsub, hs]
    · simp [cacheIdentityComponent, hu, hne, hsub]
  · intro r hu
    simp [cacheIdentityComponent, hu]

/-- Witness for C3 amended: on a request authenticated as `alice`, both
identities are `user:alice`. -/
theorem c3_amended_witness :
    get_client_id reqAuthed = "user:alice" ∧
    cacheIdentityComponent reqAuthed = "user:alice" :=
  c3_amended.1 reqAuthed [("sub", "alice")] "alice" rfl (by decide) (by decide)
    (by decide)

/-- Claim C5, amended: `GET /health` never requires a token, never reads or
writes any rate-limit bucket, contacts no origin, and is never served from
the cache (the response is the fresh health body whatever the store holds);
however the 200 response IS written to the cache store under the `/health`
fingerprint — an entry that is never served because the inbound lookup
bypasses `/health`. Stated over every store, header list, clock, JWT
oracle, and origin. -/
theorem c5_amended (ttl m w : ℕ) (now : ℚ) (pt host : String)
    (hs : List (String × String)) (jwtD : String → JwtOutcome)
    (origin : Request → Response) (s : Store) :
    gatewayApp ⟨true, ttl, true, m, w⟩ now pt jwtD origin
        ⟨"GET", "/health", "", hs, host, none⟩ s =
      ⟨.ok ⟨healthBody, 200, [("X-Cache", "MISS"), ("X-Process-Time", pt)]⟩,
       ⟨s.buckets, assocSet s.cache "cache:GET|/health||anonymous"
          ⟨healthBody, 200, [], now⟩⟩, 0⟩ := by
  rfl

/-- Claim C7: the limiter's optimistic transaction is attempted at most
3 times (`max_retries = 3`). Any unexpected store error fails open with
`(False, max_tokens)` and leaves the bucket unwritten; three consecutive
watch conflicts exhaust the retries and fail open the same way; at most two
conflicts followed by a committing attempt produce the normal token-bucket
result. -/
theorem c7_retries_and_fail_open (maxTokens : ℕ) (refillRate now : ℚ) :
    (∀ (events : List TxnAttempt) (b : Option Bucket),
       is_rate_limited maxTokens refillRate now true events b =
         ((false, (maxTokens : ℤ)), b)) ∧
    (∀ (events : List TxnAttempt) (b : Option Bucket),
       is_rate_limited maxTokens refillRate now false
         (.watchError :: .watchError :: .watchError :: events) b =
         ((false, (maxTokens : ℤ)), b)) ∧
    (∀ (k : ℕ) (b : Option Bucket), k ≤ 2 →
       is_rate_limited maxTokens refillRate now false
         (List.replicate k .watchError ++ [.ok]) b =
         ((rateLimiterStep maxTokens refillRate now b).1,
          some (rateLimiterStep maxTokens refillRate now b).2)) := by
  refine ⟨fun evs b => rfl, fun evs b => rfl, fun k b hk => ?_⟩
  interval_cases k <;> rfl

/-- Witness for C7: one conflict then a commit at `max_tokens = 3`,
`refill_rate = 3`, time 100 yields the ordinary bucket update. -/
theorem c7_witness :
    is_rate_limited 3 3 100 false (List.replicate 1 .watchError ++ [.ok])
        none =
      ((rateLimiterStep 3 3 100 none).1, some (rateLimiterStep 3 3 100 none).2) :=
  (c7_retries_and_fail_open 3 3 100).2.2 1 none (by decide)

/-- Claim C8: for every non-`/health` request the authenticator partitions
exactly as specified — missing or non-`Bearer` header, expired token,
otherwise-invalid token, unexpected internal failure, and success (claims
attached, inner handler invoked). -/
theorem c8_auth_error_mapping (jwtDecode : String → JwtOutcome)
    (inner : Handler) (req : Request) (s : Store)
    (hpath : req.path ≠ "/health") :
    (headerGet req.headers "Authorization" = none →
      auth_middleware jwtDecode inner req s =
        ⟨.ok ⟨jsonDetail "Missing or invalid Authorization header", 401, []⟩,
         s, 0⟩) ∧
    (∀ a, headerGet req.headers "Authorization" = some a →
      strStartsWith a "Bearer " = false →
      auth_middleware jwtDecode inner req s =
        ⟨.ok ⟨jsonDetail "Missing or invalid Authorization header", 401, []⟩,
         s, 0⟩) ∧
    (∀ a, headerGet req.headers "Authorization" = some a →
      strStartsWith a "Bearer " = true →
      (jwtDecode (authToken a) = .expired →
        auth_middleware jwtDecode inner req s =
          ⟨.ok ⟨jsonDetail "Token expired", 401, []⟩, s, 0⟩) ∧
      (jwtDecode (authToken a) = .invalid →
        auth_middleware jwtDecode inner req s =
          ⟨.ok ⟨jsonDetail "Token invalid", 401, []⟩, s, 0⟩) ∧
      (∀ m, jwtDecode (authToken a) = .error m →
        auth_middleware jwtDecode inner req s =
          ⟨.ok ⟨jsonDetail ("Auth error: " ++ m), 500, []⟩, s, 0⟩) ∧
      (∀ p, jwtDecode (authToken a) = .ok p →
        auth_middleware jwtDecode inner req s =
          inner { req with user := some p } s)) := by
  refine ⟨fun h => ?_, fun a ha hb => ?_, fun a ha hb => ?_⟩
  · simp [auth_middleware, hpath, h]
  · simp [auth_middleware, hpath, ha, hb]
  · refine ⟨fun hj => ?_, fun hj => ?_, fun m hj => ?_, fun p hj => ?_⟩ <;>
      simp [auth_middleware, hpath, ha, hb, hj]

/-- Witness for C8: a request to `/foo` with no `Authorization` header gets
the 401 missing-header response. -/
theorem c8_witness :
    auth_middleware jwtStub innerTrivial reqNoAuth ⟨[], []⟩ =
      ⟨.ok ⟨jsonDetail "Missing or invalid Authorization header", 401, []⟩,
       ⟨[], []⟩, 0⟩ :=
  (c8_auth_error_mapping jwtStub innerTrivial reqNoAuth ⟨[], []⟩
    (by decide)).1 rfl

/-- `headerGet` after `setHeader`: the assigned name reads back the new
value, any other name is unaffected. -/
lemma headerGet_setHeader (hs : List (String × String)) (n v q : String) :
    headerGet (setHeader hs n v) q =
      if lowerStr n = lowerStr q then some v else headerGet hs q := by
  unfold setHeader
  induction hs with
  | nil => simp [headerGet, removeHeader]
  | cons p rest ih =>
    by_cases hpn : lowerStr p.1 = lowerStr n
    · by_cases hnq : lowerStr n = lowerStr q
      · have hpq : lowerStr p.1 = lowerStr q := hpn.trans hnq
        simp [headerGet, removeHeader, hpn, hnq, hpq, ih]
      · have hpq : ¬ lowerStr p.1 = lowerStr q := fun hx => hnq (hpn.symm.trans hx)
        simp [headerGet, removeHeader, hpn, hnq, hpq, ih]
    · by_cases hnq : lowerStr n = lowerStr q
      · have hpq : ¬ lowerStr p.1 = lowerStr q := fun hx => hpn (hx.trans hnq.symm)
        simp [headerGet, removeHeader, hpn, hnq, hpq, ih]
      · simp [headerGet, removeHeader, hpn, hnq, ih]

/-- Claim C9, counterexample. With `max_tokens = 3`, `window = 1` and
`now = 0`, the middleware emits `X-RateLimit-Reset: 1`
(`int(now + 1/refill_rate) + 1 = ⌊1/3⌋ + 1`), while the claimed formula
`⌈now + 1/refill_rate⌉ + 1` evaluates to `2`. -/
theorem c9_counterexample :
    responseHeader (rateLimitDispatch 3 1 0 innerTrivial reqData ⟨[], []⟩)
        "X-RateLimit-Reset" = some "1" ∧
    toString ((⌈(0 : ℚ) + 1 / ((3 : ℚ) / (1 : ℚ))⌉ + 1 : ℤ)) = "2" ∧
    (some "1" : Option String) ≠ some "2" := by
  refine ⟨?_, ?_, by decide⟩
  · norm_num +decide [rateLimitDispatch, reqData, clientid_ip, rlkey_ip,
      assocLookup, assocSet, rateLimiterStep, pyTrunc, innerTrivial,
      responseHeader, headerGet, setHeader, removeHeader, List.foldl,
      lower_rll, lower_rlr, lower_rls]
  · have he : ((0 : ℚ) + 1 / ((3 : ℚ) / (1 : ℚ))) = 1 / 3 := by norm_num
    rw [he]
    have h13 : (⌈(1 : ℚ) / 3⌉ : ℤ) = 1 := by
      rw [Int.ceil_eq_iff]
      norm_num
    rw [h13]
    decide

/-- Claim C9, amended: on every non-bypass request that yields a response
(admitted or denied), the three rate-limit headers carry `str(max_tokens)`,
`str(remaining)` (the limiter's already-truncated return value), and
`str(int(now + 1/refill_rate) + 1)` — truncation, not the ceiling the claim
stated. Requires a positive bucket size and window, otherwise the dispatch
raises (see C4). -/
theorem c9_amended (maxTokens windowSize : ℕ) (now : ℚ) (inner : Handler)
    (req : Request) (s : Store) (hpath : req.path ≠ "/health")
    (hmax : 0 < maxTokens) (hwin : 0 < windowSize) :
    ∀ resp,
      (rateLimitDispatch maxTokens windowSize now inner req s).result =
        .ok resp →
      headerGet resp.headers "X-RateLimit-Limit" = some (toString maxTokens) ∧
      headerGet resp.headers "X-RateLimit-Remaining" =
        some (toString (rateLimiterStep maxTokens
          ((maxTokens : ℚ) / (windowSize : ℚ)) now
          (assocLookup s.buckets ("rate_limit:" ++ get_client_id req))).1.2) ∧
      headerGet resp.headers "X-RateLimit-Reset" =
        some (toString
          (pyTrunc (now + 1 / ((maxTokens : ℚ) / (windowSize : ℚ))) + 1)) := by
  intro resp hresp
  have h1 : (0 : ℚ) < (maxTokens : ℚ) := by exact_mod_cast hmax
  have h2 : (0 : ℚ) < (windowSize : ℚ) := by exact_mod_cast hwin
  have hrate : ¬ ((maxTokens : ℚ) / (windowSize : ℚ) = 0) :=
    div_ne_zero (ne_of_gt h1) (ne_of_gt h2)
  simp only [rateLimitDispatch, if_neg hpath, if_neg hrate] at hresp
  split at hresp
  · injection hresp with hr
    subst hr
    simp +decide [headerGet, lower_rll, lower_rlr, lower_rls]
  · split at hresp
    · simp at hresp
    · injection hresp with hr
      subst hr
      simp only [List.foldl]
      rw [headerGet_setHeader, headerGet_setHeader, headerGet_setHeader]
      simp +decide [headerGet_setHeader, lower_rll, lower_rlr, lower_rls]

/-- Witness for C9 amended: the admitted request of the counterexample
carries `Limit 3`, `Remaining 2`, `Reset 1`. -/
theorem c9_amended_witness :
    headerGet [("X-RateLimit-Limit", "3"), ("X-RateLimit-Remaining", "2"),
        ("X-RateLimit-Reset", "1")] "X-RateLimit-Limit" = some "3" ∧
    headerGet [("X-RateLimit-Limit", "3"), ("X-RateLimit-Remaining", "2"),
        ("X-RateLimit-Reset", "1")] "X-RateLimit-Remaining" = some "2" ∧
    headerGet [("X-RateLimit-Limit", "3"), ("X-RateLimit-Remaining", "2"),
        ("X-RateLimit-Reset", "1")] "X-RateLimit-Reset" = some "1" := by
  have h := c9_amended 3 1 0 innerTrivial reqData ⟨[], []⟩ (by decide)
    (by norm_num) (by norm_num)
    ⟨[], 200, [("X-RateLimit-Limit", "3"), ("X-RateLimit-Remaining", "2"),
      ("X-RateLimit-Reset", "1")]⟩ ?hok
  case hok =>
    norm_num +decide [rateLimitDispatch, reqData, clientid_ip, rlkey_ip,
      assocLookup, assocSet, rateLimiterStep, pyTrunc, innerTrivial,
      setHeader, removeHeader, List.foldl, lower_rll, lower_rlr, lower_rls]
  refine ⟨?_, ?_, ?_⟩
  · have h1 := h.1
    norm_num [pyTrunc] at h1 ⊢
    convert h1 using 2
  · have h1 := h.2.1
    norm_num [reqData, clientid_ip, rlkey_ip, assocLookup, rateLimiterStep,
      pyTrunc] at h1 ⊢
    convert h1 using 2
  · have h1 := h.2.2
    norm_num [pyTrunc] at h1 ⊢
    convert h1 using 2

/-- A failing `content.decode()` (invalid UTF-8, necessarily non-empty) is
swallowed by `cache_response`'s `except` clause: the store is untouched. -/
lemma cache_response_invalid (r : Request) (resp : Response) (content : Bytes)
    (now : ℚ) (s : Store) (h : utf8Valid content = false) :
    cache_response r resp content now s = s := by
  have hne : content ≠ [] := by
    intro he
    rw [he] at h
    exact absurd h (by decide)
  unfold cache_response
  split_ifs with h1 h2
  all_goals try rfl
  exact absurd ⟨hne, h⟩ h2

/-- Claim C10: a response body that is not valid UTF-8 makes the cache write
fail internally and the failure is a no-op — no entry is stored under the
fingerprint (so it can never be served as a HIT) — while the response goes
back to the client with its body and status unchanged, only the MISS
instrumentation headers added. -/
theorem c10_invalid_utf8_never_cached :
    (∀ (r : Request) (resp : Response) (content : Bytes) (now : ℚ) (s : Store),
       utf8Valid content = false →
       cache_response r resp content now s = s) ∧
    (∀ (ttl : ℕ) (now : ℚ) (pt : String) (inner : Handler) (req : Request)
       (s s1 : Store) (r : Response) (n : ℕ),
       inner req s = ⟨.ok r, s1, n⟩ →
       get_cached_response req s = none →
       utf8Valid r.body = false →
       cacheDispatch true ttl now pt inner req s =
         ⟨.ok ⟨r.body, r.statusCode,
            setHeader (setHeader r.headers "X-Cache" "MISS")
              "X-Process-Time" pt⟩, s1, n⟩) := by
  constructor
  · exact cache_response_invalid
  · intro ttl now pt inner req s s1 r n hinner hmiss hbad
    simp only [cacheDispatch, hmiss, hinner]
    simp [cache_response_invalid _ _ _ _ _ hbad]

/-- Witness for C10: an origin answering the single byte `0xFF` on
`GET /api/data` is returned with MISS headers and nothing is stored. -/
theorem c10_witness :
    cacheDispatch true 300 100 "0.0000" innerBad reqData ⟨[], []⟩ =
      ⟨.ok ⟨[255], 200, [("X-Cache", "MISS"), ("X-Process-Time", "0.0000")]⟩,
       ⟨[], []⟩, 0⟩ := by
  have h := c10_invalid_utf8_never_cached.2 300 100 "0.0000" innerBad reqData
    ⟨[], []⟩ ⟨[], []⟩ ⟨[255], 200, []⟩ 0 rfl (by decide) (by decide)
  exact h
